import Mathlib

/-!
Verification of the access-control core of the storage-access Flask
application: the access-attempt evaluator (app/security.py,
process_access_attempt), the role predicate (app/models.py,
User.has_admin_access), admin approval (app/admin.py, approve_user) and
access-window creation (app/admin.py, windows).

The database-backed state is embedded shallowly: naive UTC datetimes are
integers (an abstract tick; the unit is irrelevant to every comparison the
code performs), possibly timezone-aware Python datetimes carry an optional
UTC offset, and the werkzeug salted hash is modelled as an abstract
commitment that verifies exactly the hashed string.
-/

namespace StorageAccess

/-- A Python datetime: its wall-clock reading plus an optional timezone
offset (minutes east of UTC). A naive datetime has offset none; for an
aware datetime the UTC instant is wall minus the offset. -/
structure PyDateTime where
  wall : Int
  tzOffset : Option Int
deriving DecidableEq, Repr

/-- app/security.py to_utc_naive: a naive datetime is returned unchanged,
an aware one is converted to UTC and stripped of its tzinfo. -/
def to_utc_naive (dt : PyDateTime) : PyDateTime :=
  match dt.tzOffset with
  | none => dt
  | some off => { wall := dt.wall - off, tzOffset := none }

/-- The naive-UTC reading of a datetime, as used once it has passed through
to_utc_naive. -/
def naiveVal (dt : PyDateTime) : Int :=
  (to_utc_naive dt).wall

/-- Build a naive datetime from a tick. -/
def mkNaive (t : Int) : PyDateTime :=
  { wall := t, tzOffset := none }

/-- app/models.py UserStatus. -/
inductive UserStatus where
  | ACTIVE
  | INACTIVE
deriving DecidableEq, Repr

/-- app/models.py UserRole. -/
inductive UserRole where
  | USER
  | ADMIN
deriving DecidableEq, Repr

/-- app/models.py AccessResult. -/
inductive AccessResult where
  | GRANT
  | DENY
deriving DecidableEq, Repr

/-- A werkzeug password hash, modelled as an abstract commitment to the
hashed plaintext: generate_password_hash is hashing, and
check_password_hash succeeds exactly on the hashed plaintext. -/
structure PinHash where
  plain : String
deriving DecidableEq, Repr

/-- app/security.py hash_pin (generate_password_hash). -/
def hash_pin (pin : String) : PinHash :=
  { plain := pin }

/-- werkzeug check_password_hash on the abstract hash model. -/
def check_password_hash (h : PinHash) (code : String) : Bool :=
  h.plain == code

/-- app/models.py User: the columns the access-control core reads or
writes. Naive datetime columns are Int; role_expires_at may be an aware
datetime, which has_admin_access normalizes before comparing. -/
structure User where
  user_id : Int
  email : String
  password_hash : String
  status : UserStatus
  role : UserRole
  role_expires_at : Option PyDateTime
  pin_hash : Option PinHash
  email_confirmed_at : Option Int
  failed_pin_attempts : Int
  last_failed_at : Option Int
deriving DecidableEq, Repr

/-- app/models.py User.email_confirmed: presence of email_confirmed_at. -/
def User.email_confirmed (u : User) : Bool :=
  u.email_confirmed_at.isSome

/-- app/models.py User.has_admin_access, with the call-time value of
datetime.utcnow() passed explicitly as now: false unless role is ADMIN;
true when role_expires_at is null; otherwise the expiry is normalized to
naive UTC and compared with expiry >= now. -/
def User.has_admin_access (u : User) (now : Int) : Bool :=
  if u.role ≠ UserRole.ADMIN then false
  else
    match u.role_expires_at with
    | none => true
    | some expiry => naiveVal expiry ≥ now

/-- app/models.py AccessWindow row. -/
structure AccessWindow where
  win_id : Int
  user_id : Int
  start_time : Int
  end_time : Int
deriving DecidableEq, Repr

/-- app/models.py AccessLog row (log_id left implicit: entries live in an
append-only list in insertion order). -/
structure AccessLog where
  user_id : Option Int
  timestamp : Int
  result : AccessResult
  reason : String
  ip_address : Option String
deriving DecidableEq, Repr

/-- The SQLAlchemy-backed state the core touches: the users table, the
access_windows table and the append-only access_logs table. -/
structure DBState where
  users : List User
  windows : List AccessWindow
  logs : List AccessLog
deriving DecidableEq, Repr

/-- db.session.get(User, user_id) guarded by the user_id is not None check
of process_access_attempt line 34. -/
def getUser (st : DBState) (user_id : Option Int) : Option User :=
  match user_id with
  | none => none
  | some uid => st.users.find? (fun u => u.user_id == uid)

/-- An ORM in-place mutation of the user row with the given id. -/
def updateUser (st : DBState) (uid : Int) (f : User → User) : DBState :=
  { st with users := st.users.map (fun u => if u.user_id == uid then f u else u) }

/-- app/security.py log_attempt: builds an AccessLog row and adds it to the
session; ts is already naive here (to_utc_naive is idempotent on the naive
value the evaluator passes). -/
def log_attempt (st : DBState) (user_id : Option Int) (result : AccessResult)
    (reason : String) (ip_address : Option String) (ts : Int) : DBState :=
  { st with logs := st.logs ++
      [{ user_id := user_id,
         timestamp := ts,
         result := result,
         reason := reason,
         ip_address := ip_address }] }

/-- The Python truthiness of user.pin_hash and the hash comparison of
process_access_attempt line 46: true when pin_hash is present and the
entered code matches it. -/
def pin_ok (u : User) (entered_code : String) : Bool :=
  match u.pin_hash with
  | none => false
  | some h => check_password_hash h entered_code

/-- app/security.py process_access_attempt, lines 32-72. Returns the new
state together with the (allowed, message) pair the function returns. The
current time is normalized through to_utc_naive first; then in order:
unknown id denies with USER_NOT_FOUND (logged with null user), a
non-ACTIVE or unconfirmed account denies with USER_INACTIVE, a missing or
mismatching PIN bumps failed_pin_attempts, stamps last_failed_at and
denies with WRONG_PIN, a non-empty window set containing no window with
start_time <= now <= end_time denies with OUTSIDE_ACCESS_WINDOW, and
otherwise failed_pin_attempts resets to 0 and access is granted. Every
branch commits exactly one log entry. -/
def process_access_attempt (st : DBState) (user_id : Option Int)
    (entered_code : String) (current_time0 : PyDateTime)
    (ip_address : Option String) : DBState × Bool × String :=
  let current_time := naiveVal current_time0
  match getUser st user_id with
  | none =>
      (log_attempt st none AccessResult.DENY "USER_NOT_FOUND" ip_address current_time,
        false, "User not found")
  | some user =>
      if user.status ≠ UserStatus.ACTIVE ∨ user.email_confirmed_at = none then
        (log_attempt st (some user.user_id) AccessResult.DENY "USER_INACTIVE"
          ip_address current_time, false, "Account is inactive")
      else if pin_ok user entered_code = false then
        let st1 := updateUser st user.user_id (fun u =>
          { u with failed_pin_attempts := u.failed_pin_attempts + 1,
                   last_failed_at := some current_time })
        (log_attempt st1 (some user.user_id) AccessResult.DENY "WRONG_PIN"
          ip_address current_time, false, "Invalid PIN")
      else
        let userWindows := st.windows.filter (fun w => w.user_id == user.user_id)
        let activeWindow := userWindows.any (fun w =>
          decide (w.start_time ≤ current_time) && decide (w.end_time ≥ current_time))
        if userWindows ≠ [] ∧ activeWindow = false then
          (log_attempt st (some user.user_id) AccessResult.DENY "OUTSIDE_ACCESS_WINDOW"
            ip_address current_time, false, "Outside permitted access window")
        else
          let st1 := updateUser st user.user_id (fun u =>
            { u with failed_pin_attempts := 0 })
          (log_attempt st1 (some user.user_id) AccessResult.GRANT "ACCESS_GRANTED"
            ip_address current_time, true, "Access granted")

/-- Outcome of the admin approval handler, abstracting the flash/redirect
responses. -/
inductive ApproveOutcome where
  | notFound
  | notConfirmed
  | approved
deriving DecidableEq, Repr

/-- The row mutation admin approval performs: status becomes ACTIVE and
pin_hash is replaced by the hash of the freshly drawn PIN (app/admin.py
lines 49-51). -/
def approvalUpdate (freshPin : String) (x : User) : User :=
  { x with status := UserStatus.ACTIVE, pin_hash := some (hash_pin freshPin) }

/-- app/admin.py approve_user, lines 41-54, with the random draw of
generate_pin() (secrets.randbelow, six digits, no uniqueness filtering)
passed in as freshPin: 404 when the user does not exist, refusal when the
email is unconfirmed, and otherwise the approvalUpdate mutation is
committed. -/
def approve_user (st : DBState) (uid : Int) (freshPin : String) :
    DBState × ApproveOutcome :=
  match st.users.find? (fun u => u.user_id == uid) with
  | none => (st, ApproveOutcome.notFound)
  | some user =>
      if user.email_confirmed = false then (st, ApproveOutcome.notConfirmed)
      else
        (updateUser st user.user_id (approvalUpdate freshPin),
          ApproveOutcome.approved)

/-- app/admin.py windows, lines 93-112, POST branch with a validated form:
end <= start is rejected with no state change; otherwise one new
AccessWindow row is added (newId models the autoincrement key). Returns
the new state and whether the window was created. -/
def add_access_window (st : DBState) (uid : Int) (startT endT : Int)
    (newId : Int) : DBState × Bool :=
  if endT ≤ startT then (st, false)
  else ({ st with windows := st.windows ++
    [{ win_id := newId, user_id := uid, start_time := startT, end_time := endT }] }, true)

/-- One Evaluate invocation, bundled for sequencing. -/
structure AttemptCall where
  user_id : Option Int
  entered_code : String
  current_time : PyDateTime
  ip_address : Option String

/-- Fold a list of Evaluate calls over the state, threading the database
through in call order. -/
def runAttempts (st : DBState) : List AttemptCall → DBState
  | [] => st
  | c :: cs => runAttempts (process_access_attempt st c.user_id c.entered_code
      c.current_time c.ip_address).1 cs

/-- The fields of a user row the evaluator never writes: everything except
the brute-force counters failed_pin_attempts and last_failed_at. -/
def frameView (u : User) :
    Int × String × String × UserStatus × UserRole × Option PyDateTime ×
      Option PinHash × Option Int :=
  (u.user_id, u.email, u.password_hash, u.status, u.role, u.role_expires_at,
    u.pin_hash, u.email_confirmed_at)

/-- A registered, email-confirmed user holding a PIN whose account was
deactivated (status INACTIVE). -/
def uInactive : User :=
  { user_id := 1, email := "alice@example.com", password_hash := "pw",
    status := UserStatus.INACTIVE, role := UserRole.USER,
    role_expires_at := none, pin_hash := some (hash_pin "123456"),
    email_confirmed_at := some 0, failed_pin_attempts := 0,
    last_failed_at := none }

/-- The same principal, active. -/
def uActive : User :=
  { uInactive with status := UserStatus.ACTIVE }

/-- An active principal holding a temporary admin role that expires at
tick 1. -/
def uAdmin : User :=
  { uActive with role := UserRole.ADMIN, role_expires_at := some (mkNaive 1) }

/-- An email-confirmed principal awaiting approval: inactive, no PIN
issued yet. -/
def uConfirmed : User :=
  { uInactive with pin_hash := none }

/-- Database holding only the deactivated principal. -/
def stInactive : DBState :=
  { users := [uInactive], windows := [], logs := [] }

/-- Database holding the active principal restricted to the single window
from tick 0 to tick 60 (one hour at minute granularity). -/
def stWindowed : DBState :=
  { users := [uActive],
    windows := [{ win_id := 1, user_id := 1, start_time := 0, end_time := 60 }],
    logs := [] }

/-- Database holding an active principal with several failed attempts on
record and no configured windows. -/
def stNoWindows : DBState :=
  { users := [{ uActive with failed_pin_attempts := 7 }], windows := [],
    logs := [] }

/-- Database holding the confirmed, not yet approved principal. -/
def stConfirmed : DBState :=
  { users := [uConfirmed], windows := [], logs := [] }

/-! Shared lemmas: normalization of datetimes, the effect of an ORM update
on lookups, and one reduction lemma per branch of the evaluator. -/

theorem naiveVal_to_utc_naive (dt : PyDateTime) :
    naiveVal (to_utc_naive dt) = naiveVal dt := by
  cases h : dt.tzOffset <;> simp [naiveVal, to_utc_naive, h]

theorem naiveVal_mkNaive (t : Int) : naiveVal (mkNaive t) = t := rfl

theorem updateUser_logs (st : DBState) (uid : Int) (f : User → User) :
    (updateUser st uid f).logs = st.logs := rfl

theorem updateUser_windows (st : DBState) (uid : Int) (f : User → User) :
    (updateUser st uid f).windows = st.windows := rfl

theorem log_attempt_logs (st : DBState) (uid : Option Int) (r : AccessResult)
    (reason : String) (ip : Option String) (ts : Int) :
    (log_attempt st uid r reason ip ts).logs = st.logs ++
      [{ user_id := uid, timestamp := ts, result := r, reason := reason,
         ip_address := ip }] := rfl

theorem find?_map_update (l : List User) (uid : Int) (f : User → User)
    (hf : ∀ x, (f x).user_id = x.user_id) (u : User)
    (h : l.find? (fun x => x.user_id == uid) = some u) :
    (l.map (fun x => if x.user_id == uid then f x else x)).find?
      (fun x => x.user_id == uid) = some (f u) := by
  induction l with
  | nil => simp at h
  | cons a t ih =>
      cases ha : (a.user_id == uid) with
      | true =>
          rw [List.find?_cons, ha] at h
          replace h : some a = some u := h
          injection h with h
          subst h
          have hfa : ((f a).user_id == uid) = true := by rw [hf a]; exact ha
          have hhead : (if (a.user_id == uid) = true then f a else a) = f a := if_pos ha
          rw [List.map_cons, hhead, List.find?_cons, hfa]
      | false =>
          rw [List.find?_cons, ha] at h
          replace h : List.find? (fun x => x.user_id == uid) t = some u := h
          have hhead : (if (a.user_id == uid) = true then f a else a) = a :=
            if_neg (by rw [ha]; exact Bool.noConfusion)
          rw [List.map_cons, hhead, List.find?_cons, ha]
          exact ih h

theorem find?_updateUser (st : DBState) (uid : Int) (f : User → User)
    (hf : ∀ x, (f x).user_id = x.user_id) (u : User)
    (h : st.users.find? (fun x => x.user_id == uid) = some u) :
    (updateUser st uid f).users.find? (fun x => x.user_id == uid) = some (f u) :=
  find?_map_update st.users uid f hf u h

theorem process_not_found (st : DBState) (uid : Option Int) (code : String)
    (t : PyDateTime) (ip : Option String) (h : getUser st uid = none) :
    process_access_attempt st uid code t ip =
      (log_attempt st none AccessResult.DENY "USER_NOT_FOUND" ip (naiveVal t),
        false, "User not found") := by
  simp only [process_access_attempt, h]

theorem process_inactive (st : DBState) (uid : Option Int) (u : User)
    (code : String) (t : PyDateTime) (ip : Option String)
    (h : getUser st uid = some u)
    (h2 : u.status ≠ UserStatus.ACTIVE ∨ u.email_confirmed_at = none) :
    process_access_attempt st uid code t ip =
      (log_attempt st (some u.user_id) AccessResult.DENY "USER_INACTIVE" ip
        (naiveVal t), false, "Account is inactive") := by
  simp only [process_access_attempt, h]
  rw [if_pos h2]

theorem process_wrong_pin (st : DBState) (uid : Option Int) (u : User)
    (code : String) (t : PyDateTime) (ip : Option String)
    (h : getUser st uid = some u)
    (h2 : u.status = UserStatus.ACTIVE) (h3 : u.email_confirmed_at ≠ none)
    (h4 : pin_ok u code = false) :
    process_access_attempt st uid code t ip =
      (log_attempt (updateUser st u.user_id (fun x =>
          { x with failed_pin_attempts := x.failed_pin_attempts + 1,
                   last_failed_at := some (naiveVal t) }))
        (some u.user_id) AccessResult.DENY "WRONG_PIN" ip (naiveVal t),
        false, "Invalid PIN") := by
  simp only [process_access_attempt, h]
  rw [if_neg (by push_neg; exact ⟨h2, h3⟩), if_pos h4]

theorem process_outside_window (st : DBState) (uid : Option Int) (u : User)
    (code : String) (t : PyDateTime) (ip : Option String)
    (h : getUser st uid = some u)
    (h2 : u.status = UserStatus.ACTIVE) (h3 : u.email_confirmed_at ≠ none)
    (h4 : pin_ok u code = true)
    (h5 : st.windows.filter (fun w => w.user_id == u.user_id) ≠ [])
    (h6 : (st.windows.filter (fun w => w.user_id == u.user_id)).any (fun w =>
      decide (w.start_time ≤ naiveVal t) && decide (w.end_time ≥ naiveVal t)) = false) :
    process_access_attempt st uid code t ip =
      (log_attempt st (some u.user_id) AccessResult.DENY "OUTSIDE_ACCESS_WINDOW"
        ip (naiveVal t), false, "Outside permitted access window") := by
  simp only [process_access_attempt, h]
  rw [if_neg (by push_neg; exact ⟨h2, h3⟩), if_neg (by simp [h4]), if_pos ⟨h5, h6⟩]

theorem process_grant (st : DBState) (uid : Option Int) (u : User)
    (code : String) (t : PyDateTime) (ip : Option String)
    (h : getUser st uid = some u)
    (h2 : u.status = UserStatus.ACTIVE) (h3 : u.email_confirmed_at ≠ none)
    (h4 : pin_ok u code = true)
    (h5 : st.windows.filter (fun w => w.user_id == u.user_id) = [] ∨
      (st.windows.filter (fun w => w.user_id == u.user_id)).any (fun w =>
        decide (w.start_time ≤ naiveVal t) && decide (w.end_time ≥ naiveVal t)) = true) :
    process_access_attempt st uid code t ip =
      (log_attempt (updateUser st u.user_id (fun x =>
          { x with failed_pin_attempts := 0 }))
        (some u.user_id) AccessResult.GRANT "ACCESS_GRANTED" ip (naiveVal t),
        true, "Access granted") := by
  simp only [process_access_attempt, h]
  rw [if_neg (by push_neg; exact ⟨h2, h3⟩), if_neg (by simp [h4])]
  have hneg : ¬(st.windows.filter (fun w => w.user_id == u.user_id) ≠ [] ∧
      (st.windows.filter (fun w => w.user_id == u.user_id)).any (fun w =>
        decide (w.start_time ≤ naiveVal t) && decide (w.end_time ≥ naiveVal t)) = false) := by
    rcases h5 with h5 | h5
    · exact fun hc => hc.1 h5
    · intro hc
      rw [h5] at hc
      exact Bool.noConfusion hc.2
  rw [if_neg hneg]

theorem map_frameView_update (l : List User) (uid : Int) (f : User → User)
    (hf : ∀ x, frameView (f x) = frameView x) :
    (l.map (fun x => if x.user_id == uid then f x else x)).map frameView =
      l.map frameView := by
  induction l with
  | nil => rfl
  | cons a t ih =>
      simp only [List.map_cons, ih]
      congr 1
      split
      · exact hf a
      · rfl

theorem process_shape (st : DBState) (uid : Option Int) (code : String)
    (t : PyDateTime) (ip : Option String) :
    ∃ (base : DBState) (luid : Option Int) (r : AccessResult) (reason : String)
      (ok : Bool) (msg : String),
      process_access_attempt st uid code t ip =
        (log_attempt base luid r reason ip (naiveVal t), ok, msg) ∧
      base.windows = st.windows ∧ base.logs = st.logs ∧
      base.users.map frameView = st.users.map frameView ∧
      reason ∈ ["USER_NOT_FOUND", "USER_INACTIVE", "WRONG_PIN",
        "OUTSIDE_ACCESS_WINDOW", "ACCESS_GRANTED"] := by
  cases hg : getUser st uid with
  | none =>
      refine ⟨st, none, AccessResult.DENY, "USER_NOT_FOUND", false,
        "User not found", process_not_found st uid code t ip hg, rfl, rfl, rfl,
        by simp⟩
  | some u =>
      by_cases h2 : u.status ≠ UserStatus.ACTIVE ∨ u.email_confirmed_at = none
      · refine ⟨st, some u.user_id, AccessResult.DENY, "USER_INACTIVE", false,
          "Account is inactive", process_inactive st uid u code t ip hg h2,
          rfl, rfl, rfl, by simp⟩
      · push_neg at h2
        by_cases h4 : pin_ok u code = false
        · refine ⟨updateUser st u.user_id (fun x =>
              { x with failed_pin_attempts := x.failed_pin_attempts + 1,
                       last_failed_at := some (naiveVal t) }),
            some u.user_id, AccessResult.DENY, "WRONG_PIN", false, "Invalid PIN",
            process_wrong_pin st uid u code t ip hg h2.1 h2.2 h4, rfl, rfl,
            map_frameView_update st.users u.user_id _ (fun x => rfl), by simp⟩
        · have h4t : pin_ok u code = true := by
            cases hpo : pin_ok u code with
            | true => rfl
            | false => exact absurd hpo h4
          by_cases h5 : st.windows.filter (fun w => w.user_id == u.user_id) = []
          · refine ⟨updateUser st u.user_id (fun x =>
                { x with failed_pin_attempts := 0 }),
              some u.user_id, AccessResult.GRANT, "ACCESS_GRANTED", true,
              "Access granted",
              process_grant st uid u code t ip hg h2.1 h2.2 h4t (Or.inl h5),
              rfl, rfl, map_frameView_update st.users u.user_id _ (fun x => rfl),
              by simp⟩
          · cases h6 : (st.windows.filter (fun w => w.user_id == u.user_id)).any
                (fun w => decide (w.start_time ≤ naiveVal t) &&
                  decide (w.end_time ≥ naiveVal t)) with
            | false =>
                refine ⟨st, some u.user_id, AccessResult.DENY,
                  "OUTSIDE_ACCESS_WINDOW", false, "Outside permitted access window",
                  process_outside_window st uid u code t ip hg h2.1 h2.2 h4t h5 h6,
                  rfl, rfl, rfl, by simp⟩
            | true =>
                refine ⟨updateUser st u.user_id (fun x =>
                    { x with failed_pin_attempts := 0 }),
                  some u.user_id, AccessResult.GRANT, "ACCESS_GRANTED", true,
                  "Access granted",
                  process_grant st uid u code t ip hg h2.1 h2.2 h4t (Or.inr h6),
                  rfl, rfl, map_frameView_update st.users u.user_id _ (fun x => rfl),
                  by simp⟩

/-! Claim theorems. -/

/-- C10: the verdict, message, and resulting state (including the logged
timestamp) of process_access_attempt are invariant under the timezone
representation of the attempt time: evaluating at an aware timestamp t
equals evaluating at its naive-UTC conversion to_utc_naive t, because the
input is normalized before any comparison or audit write. -/
theorem evaluate_timezone_invariant (st : DBState) (uid : Option Int)
    (code : String) (t : PyDateTime) (ip : Option String) :
    process_access_attempt st uid code t ip =
      process_access_attempt st uid code (to_utc_naive t) ip := by
  simp only [process_access_attempt, naiveVal_to_utc_naive]

/-- C7: admin privilege is the derived predicate role == ADMIN AND
(role_expires_at is null OR role_expires_at >= now), evaluated lazily at
check time; granting temporary admin expiring at now+1 makes the check
true at now and false at now+2, while the stored role field stays ADMIN
(has_admin_access is a pure read and mutates nothing). -/
theorem has_admin_access_spec (u : User) (now : Int) :
    (u.has_admin_access now = true ↔
      (u.role = UserRole.ADMIN ∧ (u.role_expires_at = none ∨
        ∃ e, u.role_expires_at = some e ∧ naiveVal e ≥ now))) ∧
    (u.role = UserRole.ADMIN → u.role_expires_at = some (mkNaive (now + 1)) →
      u.has_admin_access now = true ∧ u.has_admin_access (now + 2) = false ∧
      u.role = UserRole.ADMIN) := by
  constructor
  · constructor
    · intro h
      by_cases hr : u.role = UserRole.ADMIN
      · refine ⟨hr, ?_⟩
        unfold User.has_admin_access at h
        rw [if_neg (by simp [hr])] at h
        cases he : u.role_expires_at with
        | none => exact Or.inl rfl
        | some e =>
            right
            refine ⟨e, rfl, ?_⟩
            rw [he] at h
            exact of_decide_eq_true h
      · unfold User.has_admin_access at h
        rw [if_pos hr] at h
        exact absurd h (by simp)
    · rintro ⟨hr, he⟩
      unfold User.has_admin_access
      rw [if_neg (by simp [hr])]
      rcases he with he | ⟨e, he, hge⟩
      · rw [he]
      · rw [he]
        exact decide_eq_true hge
  · intro hr he
    refine ⟨?_, ?_, hr⟩
    · unfold User.has_admin_access
      rw [if_neg (by simp [hr]), he]
      exact decide_eq_true (by rw [naiveVal_mkNaive]; omega)
    · unfold User.has_admin_access
      rw [if_neg (by simp [hr]), he]
      exact decide_eq_false (by rw [naiveVal_mkNaive]; omega)

/-- C7 witness: the concrete admin whose role expires at tick 1 passes the
check at tick 0 and fails it at tick 2, with role still ADMIN. -/
theorem has_admin_access_spec_witness :
    uAdmin.role = UserRole.ADMIN ∧
    uAdmin.role_expires_at = some (mkNaive (0 + 1)) ∧
    uAdmin.has_admin_access 0 = true ∧ uAdmin.has_admin_access 2 = false :=
  ⟨rfl, by decide,
    ((has_admin_access_spec uAdmin 0).2 rfl (by decide)).1,
    ((has_admin_access_spec uAdmin 0).2 rfl (by decide)).2.1⟩

/-- C8: creating an access window is rejected exactly when end <= start,
leaving the state unchanged; on success exactly one new window row is
appended and the existing windows (and all users and logs) are untouched,
so overlapping windows accumulate. -/
theorem add_access_window_spec (st : DBState) (uid startT endT newId : Int) :
    ((add_access_window st uid startT endT newId).2 = false ↔ endT ≤ startT) ∧
    (endT ≤ startT → (add_access_window st uid startT endT newId).1 = st) ∧
    (startT < endT →
      (add_access_window st uid startT endT newId).1.windows =
        st.windows ++ [{ win_id := newId,
                         user_id := uid,
                         start_time := startT,
                         end_time := endT }] ∧
      (add_access_window st uid startT endT newId).1.users = st.users ∧
      (add_access_window st uid startT endT newId).1.logs = st.logs) := by
  unfold add_access_window
  by_cases h : endT ≤ startT
  · rw [if_pos h]
    exact ⟨by simp [h], fun _ => rfl, fun hlt => absurd h (by omega)⟩
  · rw [if_neg h]
    exact ⟨by simp [h], fun hle => absurd hle h, fun _ => ⟨rfl, rfl, rfl⟩⟩

/-- C8 witness: on the windowed database, adding a second window from
tick 0 to tick 60, overlapping the existing one, succeeds and preserves
the existing window, while the degenerate interval from tick 30 to tick 30
is rejected without any state change. -/
theorem add_access_window_spec_witness :
    ((0 : Int) < 60 ∧
      (add_access_window stWindowed 1 0 60 2).1.windows =
        stWindowed.windows ++ [{ win_id := 2,
                                 user_id := 1,
                                 start_time := 0,
                                 end_time := 60 }]) ∧
    ((30 : Int) ≤ 30 ∧ (add_access_window stWindowed 1 30 30 3).1 = stWindowed) :=
  ⟨⟨by decide, ((add_access_window_spec stWindowed 1 0 60 2).2.2 (by decide)).1⟩,
    ⟨by decide, (add_access_window_spec stWindowed 1 30 30 3).2.1 (by decide)⟩⟩

/-- C1 counterexample: for the deactivated principal presenting the
correct PIN, the evaluator logs the reason USER_INACTIVE, which is not in
the closed set the claim asserts (the code never emits ACCOUNT_INACTIVE or
INVALID_PIN). -/
theorem reason_codes_counterexample :
    ((process_access_attempt stInactive (some 1) "123456" (mkNaive 0) none).1.logs.map
      (fun e => e.reason) = ["USER_INACTIVE"]) ∧
    "USER_INACTIVE" ∉ (["USER_NOT_FOUND", "ACCOUNT_INACTIVE", "INVALID_PIN",
      "OUTSIDE_ACCESS_WINDOW", "ACCESS_GRANTED"] : List String) := by
  constructor
  · rfl
  · decide

/-- C1 (amended): every evaluation logs a reason drawn from the closed set
USER_NOT_FOUND, USER_INACTIVE, WRONG_PIN, OUTSIDE_ACCESS_WINDOW,
ACCESS_GRANTED; a principal failing the lifecycle gate is denied with
reason USER_INACTIVE, and a principal presenting a non-matching or absent
PIN is denied with reason WRONG_PIN. -/
theorem evaluate_reason_codes (st : DBState) (uid : Option Int) (code : String)
    (t : PyDateTime) (ip : Option String) :
    (∃ e, (process_access_attempt st uid code t ip).1.logs = st.logs ++ [e] ∧
      e.reason ∈ ["USER_NOT_FOUND", "USER_INACTIVE", "WRONG_PIN",
        "OUTSIDE_ACCESS_WINDOW", "ACCESS_GRANTED"]) ∧
    (∀ u, getUser st uid = some u →
      u.status ≠ UserStatus.ACTIVE ∨ u.email_confirmed_at = none →
      ∃ e, (process_access_attempt st uid code t ip).1.logs = st.logs ++ [e] ∧
        e.result = AccessResult.DENY ∧ e.reason = "USER_INACTIVE") ∧
    (∀ u, getUser st uid = some u → u.status = UserStatus.ACTIVE →
      u.email_confirmed_at ≠ none → pin_ok u code = false →
      ∃ e, (process_access_attempt st uid code t ip).1.logs = st.logs ++ [e] ∧
        e.result = AccessResult.DENY ∧ e.reason = "WRONG_PIN") := by
  refine ⟨?_, ?_, ?_⟩
  · obtain ⟨base, luid, r, reason, ok, msg, heq, _, hlogs, _, hmem⟩ :=
      process_shape st uid code t ip
    refine ⟨{ user_id := luid,
              timestamp := naiveVal t,
              result := r,
              reason := reason,
              ip_address := ip }, ?_, hmem⟩
    rw [heq]
    show (log_attempt base luid r reason ip (naiveVal t)).logs = st.logs ++ _
    rw [log_attempt_logs, hlogs]
  · intro u hg h2
    rw [process_inactive st uid u code t ip hg h2]
    exact ⟨_, rfl, rfl, rfl⟩
  · intro u hg h2 h3 h4
    rw [process_wrong_pin st uid u code t ip hg h2 h3 h4]
    exact ⟨_, rfl, rfl, rfl⟩

/-- C1 witness: concrete runs of the amended theorem — the deactivated
principal is denied with USER_INACTIVE, and the active one presenting a
wrong PIN is denied with WRONG_PIN. -/
theorem evaluate_reason_codes_witness :
    (getUser stInactive (some 1) = some uInactive ∧
      (uInactive.status ≠ UserStatus.ACTIVE ∨ uInactive.email_confirmed_at = none) ∧
      ∃ e, (process_access_attempt stInactive (some 1) "123456" (mkNaive 0)
          none).1.logs = stInactive.logs ++ [e] ∧
        e.result = AccessResult.DENY ∧ e.reason = "USER_INACTIVE") ∧
    (getUser stNoWindows (some 1) = some { uActive with failed_pin_attempts := 7 } ∧
      pin_ok { uActive with failed_pin_attempts := 7 } "999999" = false ∧
      ∃ e, (process_access_attempt stNoWindows (some 1) "999999" (mkNaive 0)
          none).1.logs = stNoWindows.logs ++ [e] ∧
        e.result = AccessResult.DENY ∧ e.reason = "WRONG_PIN") :=
  ⟨⟨by decide, by decide,
      (evaluate_reason_codes stInactive (some 1) "123456" (mkNaive 0) none).2.1
        uInactive (by decide) (by decide)⟩,
    ⟨by decide, by decide,
      (evaluate_reason_codes stNoWindows (some 1) "999999" (mkNaive 0) none).2.2
        { uActive with failed_pin_attempts := 7 } (by decide) (by decide)
        (by decide) (by decide)⟩⟩

/-- C2 counterexample: with the single window from tick 0 to tick 60 (one
hour), the active principal presenting the correct PIN at exactly the
window end is GRANTED access — the code admits the right endpoint
(end_time >= now), so evaluation at exactly T+1h does not deny with
OUTSIDE_ACCESS_WINDOW as the claim requires. -/
theorem window_halfopen_counterexample :
    (process_access_attempt stWindowed (some 1) "123456" (mkNaive 60) none).2 =
      (true, "Access granted") ∧
    ((process_access_attempt stWindowed (some 1) "123456" (mkNaive 60) none).1.logs.map
      (fun e => e.reason) = ["ACCESS_GRANTED"]) := by
  constructor
  · rfl
  · rfl

/-- C2 (amended): window containment is closed, not half-open — for an
active, email-confirmed principal with a correct PIN and exactly one
window, evaluation at tick t grants exactly when start_time <= t AND
t <= end_time (so it grants both at the window start and at the window
end), and denies with reason OUTSIDE_ACCESS_WINDOW exactly when t lies
strictly outside the closed interval. -/
theorem window_containment_closed (st : DBState) (uid : Int) (u : User)
    (code : String) (tt : Int) (ip : Option String) (w : AccessWindow)
    (h : getUser st (some uid) = some u)
    (h2 : u.status = UserStatus.ACTIVE) (h3 : u.email_confirmed_at ≠ none)
    (h4 : pin_ok u code = true)
    (h5 : st.windows.filter (fun x => x.user_id == u.user_id) = [w]) :
    ((process_access_attempt st (some uid) code (mkNaive tt) ip).2.1 = true ↔
      (w.start_time ≤ tt ∧ tt ≤ w.end_time)) ∧
    ((w.start_time ≤ tt ∧ tt ≤ w.end_time) →
      (process_access_attempt st (some uid) code (mkNaive tt) ip).2 =
        (true, "Access granted")) ∧
    (¬(w.start_time ≤ tt ∧ tt ≤ w.end_time) →
      (process_access_attempt st (some uid) code (mkNaive tt) ip).2 =
        (false, "Outside permitted access window") ∧
      ∃ e, (process_access_attempt st (some uid) code (mkNaive tt) ip).1.logs =
          st.logs ++ [e] ∧
        e.result = AccessResult.DENY ∧ e.reason = "OUTSIDE_ACCESS_WINDOW") := by
  by_cases hin : w.start_time ≤ tt ∧ tt ≤ w.end_time
  · have hany : (st.windows.filter (fun x => x.user_id == u.user_id)).any
        (fun x => decide (x.start_time ≤ naiveVal (mkNaive tt)) &&
          decide (x.end_time ≥ naiveVal (mkNaive tt))) = true := by
      rw [h5]
      simp only [List.any_cons, List.any_nil, Bool.or_false, Bool.and_eq_true,
        decide_eq_true_eq, naiveVal_mkNaive]
      exact ⟨hin.1, hin.2⟩
    rw [process_grant st (some uid) u code (mkNaive tt) ip h h2 h3 h4 (Or.inr hany)]
    exact ⟨by simp [hin], fun _ => rfl, fun hc => absurd hin hc⟩
  · have hany : (st.windows.filter (fun x => x.user_id == u.user_id)).any
        (fun x => decide (x.start_time ≤ naiveVal (mkNaive tt)) &&
          decide (x.end_time ≥ naiveVal (mkNaive tt))) = false := by
      rw [h5]
      simp only [List.any_cons, List.any_nil, Bool.or_false, naiveVal_mkNaive]
      rw [Bool.and_eq_false_iff]
      by_cases hs : w.start_time ≤ tt
      · right
        simp only [decide_eq_false_iff_not]
        omega
      · left
        simp only [decide_eq_false_iff_not]
        omega
    rw [process_outside_window st (some uid) u code (mkNaive tt) ip h h2 h3 h4
      (by rw [h5]; exact List.cons_ne_nil w []) hany]
    exact ⟨by simp [hin], fun hc => absurd hc hin, fun _ => ⟨rfl, _, rfl, rfl, rfl⟩⟩

/-- C2 witness: on the windowed database the amended theorem grants at
exactly the window end, tick 60. -/
theorem window_containment_closed_witness :
    (getUser stWindowed (some 1) = some uActive ∧
      stWindowed.windows.filter (fun x => x.user_id == uActive.user_id) =
        [{ win_id := 1, user_id := 1, start_time := 0, end_time := 60 }]) ∧
    (process_access_attempt stWindowed (some 1) "123456" (mkNaive 60) none).2 =
      (true, "Access granted") :=
  ⟨⟨by decide, by decide⟩,
    (window_containment_closed stWindowed 1 uActive "123456" 60 none
      { win_id := 1, user_id := 1, start_time := 0, end_time := 60 }
      (by decide) (by decide) (by decide) (by decide) (by decide)).2.1
      (by decide)⟩

/-- C3: the evaluator short-circuits in fixed order — any principal
failing the lifecycle gate (status not ACTIVE or unconfirmed email) is
denied there with reason USER_INACTIVE, whatever PIN is presented and
whatever windows are configured in the state; the verdict is false and
never the granted one. -/
theorem lifecycle_gate_short_circuit (st : DBState) (uid : Option Int)
    (u : User) (code : String) (t : PyDateTime) (ip : Option String)
    (h : getUser st uid = some u)
    (h2 : u.status ≠ UserStatus.ACTIVE ∨ u.email_confirmed_at = none) :
    (process_access_attempt st uid code t ip).2 = (false, "Account is inactive") ∧
    (∃ e, (process_access_attempt st uid code t ip).1.logs = st.logs ++ [e] ∧
      e.result = AccessResult.DENY ∧ e.reason = "USER_INACTIVE") ∧
    (process_access_attempt st uid code t ip).2.1 ≠ true ∧
    ∀ e, (process_access_attempt st uid code t ip).1.logs = st.logs ++ [e] →
      e.reason ≠ "ACCESS_GRANTED" := by
  rw [process_inactive st uid u code t ip h h2]
  refine ⟨rfl, ⟨_, rfl, rfl, rfl⟩, by simp, ?_⟩
  intro e he
  have : e = { user_id := some u.user_id,
               timestamp := naiveVal t,
               result := AccessResult.DENY,
               reason := "USER_INACTIVE",
               ip_address := ip } := by
    have := List.append_cancel_left he.symm
    injection this
  rw [this]
  simp

/-- C3 witness: the deactivated principal presenting the correct PIN with
no window restriction is still denied at the lifecycle gate. -/
theorem lifecycle_gate_short_circuit_witness :
    (getUser stInactive (some 1) = some uInactive ∧
      (uInactive.status ≠ UserStatus.ACTIVE ∨ uInactive.email_confirmed_at = none) ∧
      pin_ok uInactive "123456" = true) ∧
    (process_access_attempt stInactive (some 1) "123456" (mkNaive 0) none).2 =
      (false, "Account is inactive") :=
  ⟨⟨by decide, by decide, by decide⟩,
    (lifecycle_gate_short_circuit stInactive (some 1) uInactive "123456"
      (mkNaive 0) none (by decide) (by decide)).1⟩

/-- C4: every evaluation appends exactly one audit log entry, any sequence
of N evaluations appends exactly N entries in call order, and an unknown
principal id yields the verdict (false, User not found) with one entry
logged under a null principal id and reason USER_NOT_FOUND. -/
theorem evaluate_logs_exactly_once :
    (∀ (st : DBState) (uid : Option Int) (code : String) (t : PyDateTime)
      (ip : Option String), ∃ e,
      (process_access_attempt st uid code t ip).1.logs = st.logs ++ [e]) ∧
    (∀ (calls : List AttemptCall) (st : DBState), ∃ es,
      (runAttempts st calls).logs = st.logs ++ es ∧
      es.length = calls.length) ∧
    (∀ (st : DBState) (uid : Option Int) (code : String) (t : PyDateTime)
      (ip : Option String), getUser st uid = none →
      (process_access_attempt st uid code t ip).2 = (false, "User not found") ∧
      (process_access_attempt st uid code t ip).1.logs = st.logs ++
        [{ user_id := none,
           timestamp := naiveVal t,
           result := AccessResult.DENY,
           reason := "USER_NOT_FOUND",
           ip_address := ip }]) := by
  have single : ∀ (st : DBState) (uid : Option Int) (code : String)
      (t : PyDateTime) (ip : Option String), ∃ e,
      (process_access_attempt st uid code t ip).1.logs = st.logs ++ [e] := by
    intro st uid code t ip
    obtain ⟨base, luid, r, reason, ok, msg, heq, _, hlogs, _, _⟩ :=
      process_shape st uid code t ip
    refine ⟨{ user_id := luid,
              timestamp := naiveVal t,
              result := r,
              reason := reason,
              ip_address := ip }, ?_⟩
    rw [heq]
    show (log_attempt base luid r reason ip (naiveVal t)).logs = st.logs ++ _
    rw [log_attempt_logs, hlogs]
  refine ⟨single, ?_, ?_⟩
  · intro calls
    induction calls with
    | nil => exact fun st => ⟨[], by simp [runAttempts], rfl⟩
    | cons c cs ih =>
        intro st
        obtain ⟨e, he⟩ := single st c.user_id c.entered_code c.current_time
          c.ip_address
        obtain ⟨es, hes, hlen⟩ := ih ((process_access_attempt st c.user_id
          c.entered_code c.current_time c.ip_address).1)
        refine ⟨e :: es, ?_, by simp [hlen]⟩
        show (runAttempts (process_access_attempt st c.user_id c.entered_code
          c.current_time c.ip_address).1 cs).logs = _
        rw [hes, he]
        simp
  · intro st uid code t ip hg
    rw [process_not_found st uid code t ip hg]
    exact ⟨rfl, rfl⟩

/-- C4 witness: evaluating an id with no account on the concrete database
returns the user-not-found verdict and logs exactly one entry with a null
principal id. -/
theorem evaluate_logs_exactly_once_witness :
    getUser stInactive (some 2) = none ∧
    (process_access_attempt stInactive (some 2) "000000" (mkNaive 0) none).2 =
      (false, "User not found") ∧
    (process_access_attempt stInactive (some 2) "000000" (mkNaive 0) none).1.logs =
      stInactive.logs ++
        [{ user_id := none,
           timestamp := naiveVal (mkNaive 0),
           result := AccessResult.DENY,
           reason := "USER_NOT_FOUND",
           ip_address := none }] :=
  ⟨by decide,
    (evaluate_logs_exactly_once.2.2 stInactive (some 2) "000000" (mkNaive 0)
      none (by decide)).1,
    (evaluate_logs_exactly_once.2.2 stInactive (some 2) "000000" (mkNaive 0)
      none (by decide)).2⟩

/-- C5: an active, email-confirmed principal with a correct PIN and no
configured access windows is granted at every timestamp, whatever the
value of failed_pin_attempts — the window gate passes unconditionally on
an empty window set and the failure counter is never consulted. -/
theorem empty_windows_unrestricted (st : DBState) (uid : Int) (u : User)
    (code : String) (t : PyDateTime) (ip : Option String)
    (h : getUser st (some uid) = some u)
    (h2 : u.status = UserStatus.ACTIVE) (h3 : u.email_confirmed_at ≠ none)
    (h4 : pin_ok u code = true)
    (h5 : st.windows.filter (fun w => w.user_id == u.user_id) = []) :
    (process_access_attempt st (some uid) code t ip).2 = (true, "Access granted") ∧
    ∃ e, (process_access_attempt st (some uid) code t ip).1.logs =
        st.logs ++ [e] ∧
      e.result = AccessResult.GRANT ∧ e.reason = "ACCESS_GRANTED" := by
  rw [process_grant st (some uid) u code t ip h h2 h3 h4 (Or.inl h5)]
  exact ⟨rfl, _, rfl, rfl, rfl⟩

/-- C5 witness: the active principal with seven failed attempts on record
and no windows is granted at a timestamp one million ticks in the past. -/
theorem empty_windows_unrestricted_witness :
    (getUser stNoWindows (some 1) =
        some { uActive with failed_pin_attempts := 7 } ∧
      stNoWindows.windows.filter (fun w =>
        w.user_id == ({ uActive with failed_pin_attempts := 7 } : User).user_id) = [] ∧
      pin_ok { uActive with failed_pin_attempts := 7 } "123456" = true) ∧
    (process_access_attempt stNoWindows (some 1) "123456"
      (mkNaive (-1000000)) none).2 = (true, "Access granted") :=
  ⟨⟨by decide, by decide, by decide⟩,
    (empty_windows_unrestricted stNoWindows 1
      { uActive with failed_pin_attempts := 7 } "123456" (mkNaive (-1000000))
      none (by decide) (by decide) (by decide) (by decide) (by decide)).1⟩

/-- C9: the evaluator never mutates status, role, role_expires_at,
pin_hash, or any other non-counter field of any user, and never touches
the window table: after any invocation the windows are unchanged, every
user row agrees with its old value on all fields except possibly
failed_pin_attempts and last_failed_at, and the only other write is the
single appended audit log entry. -/
theorem evaluate_frame (st : DBState) (uid : Option Int) (code : String)
    (t : PyDateTime) (ip : Option String) :
    (process_access_attempt st uid code t ip).1.windows = st.windows ∧
    (process_access_attempt st uid code t ip).1.users.map frameView =
      st.users.map frameView ∧
    ∃ e, (process_access_attempt st uid code t ip).1.logs = st.logs ++ [e] := by
  obtain ⟨base, luid, r, reason, ok, msg, heq, hwin, hlogs, husers, _⟩ :=
    process_shape st uid code t ip
  rw [heq]
  refine ⟨hwin, husers, ?_⟩
  refine ⟨{ user_id := luid,
            timestamp := naiveVal t,
            result := r,
            reason := reason,
            ip_address := ip }, ?_⟩
  show (log_attempt base luid r reason ip (naiveVal t)).logs = st.logs ++ _
  rw [log_attempt_logs, hlogs]

/-- C6 counterexample: approval draws its fresh six-digit PIN at random
without excluding the current one, so both calls may draw the same PIN —
here both draw 111111 — in which case both approvals succeed but the
first issued PIN still matches pin_hash after the second call, contrary
to the claim that the old PIN always stops matching. -/
theorem approve_rotation_counterexample :
    (approve_user stConfirmed 1 "111111").2 = ApproveOutcome.approved ∧
    (approve_user (approve_user stConfirmed 1 "111111").1 1 "111111").2 =
      ApproveOutcome.approved ∧
    (((approve_user (approve_user stConfirmed 1 "111111").1 1 "111111").1.users.find?
        (fun u => u.user_id == 1)).map (fun u => pin_ok u "111111")) = some true := by
  refine ⟨rfl, rfl, ?_⟩
  decide

/-- C6 (amended): approval is refused while email_confirmed_at is null and
otherwise always succeeds, setting status to ACTIVE and replacing pin_hash
with the hash of the freshly drawn PIN on every call; calling it twice on
the same principal succeeds both times, and whenever the second drawn PIN
differs from the first, the first PIN no longer matches pin_hash while
the second does. -/
theorem approve_user_rotates (st : DBState) (uid : Int) (u : User)
    (p1 p2 : String)
    (h : st.users.find? (fun x => x.user_id == uid) = some u) :
    (u.email_confirmed_at = none →
      approve_user st uid p1 = (st, ApproveOutcome.notConfirmed)) ∧
    (u.email_confirmed_at ≠ none →
      (approve_user st uid p1).2 = ApproveOutcome.approved ∧
      (approve_user (approve_user st uid p1).1 uid p2).2 =
        ApproveOutcome.approved ∧
      ∃ u2, (approve_user (approve_user st uid p1).1 uid p2).1.users.find?
          (fun x => x.user_id == uid) = some u2 ∧
        u2.status = UserStatus.ACTIVE ∧
        u2.pin_hash = some (hash_pin p2) ∧
        pin_ok u2 p2 = true ∧
        (p2 ≠ p1 → pin_ok u2 p1 = false)) := by
  have huid : u.user_id = uid := by
    have hp := List.find?_some h
    simpa using hp
  constructor
  · intro he
    simp only [approve_user, h]
    rw [if_pos (by simp [User.email_confirmed, he])]
  · intro he
    have hconf : u.email_confirmed = true := by
      simp [User.email_confirmed, Option.isSome_iff_ne_none, he]
    have e1 : approve_user st uid p1 =
        (updateUser st uid (approvalUpdate p1), ApproveOutcome.approved) := by
      simp only [approve_user, h]
      rw [if_neg (by simp [hconf]), huid]
    have hf1 : (updateUser st uid (approvalUpdate p1)).users.find?
        (fun x => x.user_id == uid) = some (approvalUpdate p1 u) :=
      find?_updateUser st uid (approvalUpdate p1) (fun x => rfl) u h
    have hconf1 : (approvalUpdate p1 u).email_confirmed = true := hconf
    have huid1 : (approvalUpdate p1 u).user_id = uid := huid
    have e2 : approve_user (updateUser st uid (approvalUpdate p1)) uid p2 =
        (updateUser (updateUser st uid (approvalUpdate p1)) uid
          (approvalUpdate p2), ApproveOutcome.approved) := by
      simp only [approve_user, hf1]
      rw [if_neg (by simp [hconf1]), huid1]
    have hf2 : (updateUser (updateUser st uid (approvalUpdate p1)) uid
        (approvalUpdate p2)).users.find? (fun x => x.user_id == uid) =
        some (approvalUpdate p2 (approvalUpdate p1 u)) :=
      find?_updateUser _ uid (approvalUpdate p2) (fun x => rfl) _ hf1
    refine ⟨by rw [e1], ?_, ?_⟩
    · rw [e1]
      show (approve_user (updateUser st uid (approvalUpdate p1)) uid p2).2 = _
      rw [e2]
    · refine ⟨approvalUpdate p2 (approvalUpdate p1 u), ?_, rfl, rfl, ?_, ?_⟩
      · rw [e1]
        show (approve_user (updateUser st uid (approvalUpdate p1)) uid
          p2).1.users.find? (fun x => x.user_id == uid) = _
        rw [e2]
        exact hf2
      · simp [pin_ok, approvalUpdate, hash_pin, check_password_hash]
      · intro hne
        simp only [pin_ok, approvalUpdate, hash_pin, check_password_hash]
        exact beq_eq_false_iff_ne.mpr hne

/-- C6 witness: on the confirmed principal, approving with drawn PIN
111111 and then with the different drawn PIN 222222 succeeds both times,
after which the first PIN fails verification and the second matches. -/
theorem approve_user_rotates_witness :
    (stConfirmed.users.find? (fun x => x.user_id == 1) = some uConfirmed ∧
      uConfirmed.email_confirmed_at ≠ none ∧ ("222222" : String) ≠ "111111") ∧
    ((approve_user stConfirmed 1 "111111").2 = ApproveOutcome.approved ∧
      (approve_user (approve_user stConfirmed 1 "111111").1 1 "222222").2 =
        ApproveOutcome.approved) :=
  ⟨⟨by decide, by decide, by decide⟩,
    ((approve_user_rotates stConfirmed 1 uConfirmed "111111" "222222"
        (by decide)).2 (by decide)).1,
    ((approve_user_rotates stConfirmed 1 uConfirmed "111111" "222222"
        (by decide)).2 (by decide)).2.1⟩

end StorageAccess
